import Mathlib

/-!
Verification of the error subsystem and the tagged-object conversion layer of
the `rune` interpreter core, embedded from `src/core/error.rs` and
`src/core/object/convert.rs`.  Parts of the repository that those two files
use but that are not among the given sources (the tagged-value layer, the
value printer, the `define_unbox!` macro body) are modelled from the
specification; each such definition carries a `Modelled from the spec:`
doc comment.
-/

namespace Rune

/-- Alias for the string type, used in signatures where a `String` constructor
of the enclosing namespace would shadow it. -/
abbrev Str := String

/-- Modelled from the spec: the tagged object representation (outside the
given sources).  A tagged value is a uniformly sized handle carrying a
dynamic type tag over the payload types the spec lists (integer, string,
vector, hash-table, symbol, float, record, buffer) plus cons cells and
functions.  Payloads never inspected by the verified code are reduced to
opaque identifiers. -/
inductive Object where
  | Int (x : Int)
  | Float (id : Nat)
  | String (s : String)
  | Symbol (sym : String)
  | Cons (car cdr : Object)
  | Vec (id : Nat)
  | HashTable (id : Nat)
  | Record (id : Nat)
  | Buffer (id : Nat)
  | Func (id : Nat)
deriving DecidableEq, Repr

/-- The canonical nil object (`Object::NIL`): the symbol `nil`. -/
def Object.NIL : Object := .Symbol "nil"

/-- The `nil()` constructor function imported by `convert.rs`: returns the
canonical nil object. -/
def nil : Object := Object.NIL

/-- The `qtrue()` constructor function imported by `convert.rs`: returns the
canonical true object (the symbol `t`). -/
def qtrue : Object := .Symbol "t"

/-- `GcObj` is the tagged handle `Gc<Object>`.  The `Gc` wrapper is
layout-identical to its payload (only the static type label differs), so in
this embedding the handle is the tagged value itself. -/
abbrev GcObj := Object

/-- `GcObj::untag`: recover the tagged `Object` view of a handle.  With the
identity embedding of `Gc` this is the identity. -/
def Object.untag (o : GcObj) : Object := o

/-- Modelled from the spec: `GcObj::nil`, the tagged-value-layer method used
by the boolean and presence-flag conversions (its definition is outside the
given sources).  The spec's conversion table fixes both call sites: the
boolean conversion, which returns this method's value unchanged, yields
"value is not the canonical nil object", and the presence-flag conversion,
which yields `Some(())` exactly when this method returns true, yields
`Some(unit)` unless value is nil.  Hence the method returns whether the
value differs from the canonical nil object. -/
def Object.nil (o : GcObj) : Bool := decide (o ≠ Object.NIL)

/-- The `Type` enum of `error.rs` lines 163-178 (named `TypeCategory` here
because `Type` is a Lean keyword): the closed set of dynamic type
categories. -/
inductive TypeCategory where
  | Int
  | Cons
  | Vec
  | Record
  | HashTable
  | Sequence
  | String
  | Symbol
  | Float
  | Func
  | Number
  | List
  | Buffer
deriving DecidableEq, Repr

/-- The text the `{:?}` (Debug) formatting of `Type` produces: the bare
variant name, as used by `TypeError`'s `Display`. -/
def TypeCategory.debugStr : TypeCategory → Str
  | .Int => "Int"
  | .Cons => "Cons"
  | .Vec => "Vec"
  | .Record => "Record"
  | .HashTable => "HashTable"
  | .Sequence => "Sequence"
  | .String => "String"
  | .Symbol => "Symbol"
  | .Float => "Float"
  | .Func => "Func"
  | .Number => "Number"
  | .List => "List"
  | .Buffer => "Buffer"

/-- Modelled from the spec: the dynamic-type classifier of the tagged-value
layer ("a dynamic-type classifier returning a TypeCategory"), used by
`TypeError::new` as `obj.get_type()`. -/
def Object.get_type : Object → TypeCategory
  | .Int _ => .Int
  | .Float _ => .Float
  | .String _ => .String
  | .Symbol _ => .Symbol
  | .Cons _ _ => .Cons
  | .Vec _ => .Vec
  | .HashTable _ => .HashTable
  | .Record _ => .Record
  | .Buffer _ => .Buffer
  | .Func _ => .Func

/-- Modelled from the spec: the value printer ("a print/format operation for
any value"), used by `TypeError::new` as `obj.to_string()` and by the
backtrace printer.  Captured eagerly into diagnostics; the exact rendering of
each payload is fixed but immaterial to the claims. -/
def Object.to_string : Object → Str
  | .Int x => toString x
  | .Float n => "#float" ++ toString n
  | .String s => "\"" ++ s ++ "\""
  | .Symbol s => s
  | .Cons a d => "(" ++ a.to_string ++ " . " ++ d.to_string ++ ")"
  | .Vec n => "#vec" ++ toString n
  | .HashTable n => "#hashtable" ++ toString n
  | .Record n => "#record" ++ toString n
  | .Buffer n => "#buffer" ++ toString n
  | .Func n => "#func" ++ toString n

/-- `TypeError` (`error.rs` lines 181-186): expected and actual category plus
the eagerly printed snapshot of the offending value. -/
structure TypeError where
  expect : TypeCategory
  actual : TypeCategory
  print : String
deriving DecidableEq, Repr

/-- `TypeError::new` (`error.rs` lines 201-214): capture the object's dynamic
type and printed form. -/
def TypeError.new (expect : TypeCategory) (obj : Object) : TypeError :=
  { expect := expect, actual := obj.get_type, print := obj.to_string }

/-- `impl Display for TypeError` (`error.rs` lines 190-199):
`"expected {expect:?}, found {actual:?}: {print}"`. -/
def TypeError.display (e : TypeError) : String :=
  "expected " ++ e.expect.debugStr ++ ", found " ++ e.actual.debugStr ++ ": " ++ e.print

/-- `ArgError` (`error.rs` lines 130-135): expected and actual argument
counts (u16) and the function name. -/
structure ArgError where
  expect : Nat
  actual : Nat
  name : String
deriving DecidableEq, Repr

/-- `ArgError::new` (`error.rs` lines 153-161); the name is copied into the
error (`as_ref().to_owned()`). -/
def ArgError.new (expect actual : Nat) (name : String) : ArgError :=
  { expect := expect, actual := actual, name := name }

/-- `impl Display for ArgError` (`error.rs` lines 139-151). -/
def ArgError.display (e : ArgError) : String :=
  s!"Expected {e.expect} argument(s) for `{e.name}', but found {e.actual}"

/-- The `anyhow::Error` values this core constructs: a plain message
(`anyhow!`), a wrapped `TypeError` or `ArgError` (their `.into()`), the
integer-narrowing failure std's `try_into` produces, or a context layer added
by `with_context`.  `display` is the error's `Display`, which for a context
layer shows the outermost context message. -/
inductive AnyhowError where
  | msg (s : String)
  | ofTypeError (e : TypeError)
  | ofArgError (e : ArgError)
  | intConvError
  | context (ctx : String) (inner : AnyhowError)
deriving DecidableEq, Repr

/-- `Display` of an `anyhow::Error` as constructed here. -/
def AnyhowError.display : AnyhowError → String
  | .msg s => s
  | .ofTypeError e => e.display
  | .ofArgError e => e.display
  | .intConvError => "out of range integral type conversion attempted"
  | .context c _ => c

/-- `TryFrom<GcObj> for &str` (`convert.rs` lines 14-22).  The
`LispString -> &str` step (`x.try_into()`) is modelled from the spec as
yielding the string's text content unchanged (the spec treats string payloads
as text and states the result has content identical to the source). -/
def str_try_from (obj : GcObj) : Except AnyhowError String :=
  match obj.untag with
  | .String x => .ok x
  | x => .error (.ofTypeError (TypeError.new .String x))

/-- `TryFrom<GcObj> for Option<&str>` (`convert.rs` lines 24-33).
`Object::NIL` is a constant pattern for the canonical nil object, rendered
here as an equality guard (nil is a symbol, so it never overlaps the String
arm). -/
def option_str_try_from (obj : GcObj) : Except AnyhowError (Option String) :=
  if obj.untag = Object.NIL then .ok none
  else
    match obj.untag with
    | .String x => .ok (some x)
    | x => .error (.ofTypeError (TypeError.new .String x))

/-- `TryFrom<GcObj> for usize` (`convert.rs` lines 35-45).  The std
`i64 -> usize` `try_into` on the 64-bit host succeeds exactly on non-negative
values (the spec's success condition: tag is Int and value ≥ 0); on failure
`with_context` wraps the narrowing error with the formatted message. -/
def usize_try_from (obj : GcObj) : Except AnyhowError Nat :=
  match obj.untag with
  | .Int x =>
      if 0 ≤ x then .ok x.toNat
      else .error (.context ("Integer must be positive, but was " ++ toString x) .intConvError)
  | x => .error (.ofTypeError (TypeError.new .Int x))

/-- `TryFrom<GcObj> for u64` (`convert.rs` lines 47-57): same shape as the
`usize` conversion (`i64 -> u64` succeeds exactly on non-negative values). -/
def u64_try_from (obj : GcObj) : Except AnyhowError Nat :=
  match obj.untag with
  | .Int x =>
      if 0 ≤ x then .ok x.toNat
      else .error (.context ("Integer must be positive, but was " ++ toString x) .intConvError)
  | x => .error (.ofTypeError (TypeError.new .Int x))

/-- `TryFrom<GcObj> for Option<usize>` (`convert.rs` lines 59-71): Int arm
first, then the `Object::NIL` arm, then the catch-all building the
`TypeError` from `obj`. -/
def option_usize_try_from (obj : GcObj) : Except AnyhowError (Option Nat) :=
  match obj.untag with
  | .Int x =>
      if 0 ≤ x then .ok (some x.toNat)
      else .error (.context ("Integer must be positive, but was " ++ toString x) .intConvError)
  | _ =>
      if obj.untag = Object.NIL then .ok none
      else .error (.ofTypeError (TypeError.new .Int obj))

/-- `TryFrom<GcObj> for bool` (`convert.rs` lines 73-78): `Ok(obj.nil())`. -/
def bool_try_from (obj : GcObj) : Except ArgError Bool :=
  .ok obj.nil

/-- `TryFrom<GcObj> for Option<()>` (`convert.rs` lines 80-85):
`Ok(obj.nil().then_some(()))`. -/
def option_unit_try_from (obj : GcObj) : Except ArgError (Option Unit) :=
  .ok (if obj.nil then some () else none)

/-- `From<bool> for GcObj` (`convert.rs` lines 104-112). -/
def gcobj_from_bool (b : Bool) : GcObj :=
  if b then qtrue else nil

/-- Modelled from the spec: `From<i64> for GcObj` of the tagged-value layer
(outside the given sources) — tagging an integer produces the Int-tagged
value holding it. -/
def gcobj_from_int (n : Int) : GcObj := Object.Int n

/-- Modelled from the spec: the per-element conversion `define_unbox!(Int, i64)`
generates (`convert.rs` line 114; the macro body is outside the given
sources): the per-element tag check — an Int tag passes with its payload,
anything else fails with the `TypeError(expect=Int)` built from the
object. -/
def int_try_from (obj : GcObj) : Except TypeError Int :=
  match obj.untag with
  | .Int x => .ok x
  | _ => .error (TypeError.new .Int obj)

/-- The element-validation loop of `try_from_slice` (`convert.rs` lines
96-98): run the per-element conversion on each element in order, returning
the first error, if any. -/
def validate_loop {E β : Type} (conv : GcObj → Except E β) : List GcObj → Option E
  | [] => none
  | x :: xs =>
    match conv x with
    | .error e => some e
    | .ok _ => validate_loop conv xs

/-- `try_from_slice` (`convert.rs` lines 92-102): validate every element with
the per-element conversion and, only if all pass, return the same backing
sequence viewed at the narrower type, with no allocation and no per-element
copy.  Following the spec's memory-safe substitute for the raw-pointer
reinterpretation (design note: original sequence plus the knowledge that
validation already passed), the returned view is the original sequence
itself. -/
def try_from_slice {E β : Type} (conv : GcObj → Except E β) (slice : List GcObj) :
    Except E (List GcObj) :=
  match validate_loop conv slice with
  | some e => .error e
  | none => .ok slice

/-- `ErrorType` (`error.rs` lines 15-20): the three-way cause taxonomy.
Throw/Signal hold the opaque id (u32) minted by the environment's exception
registry. -/
inductive ErrorType where
  | Throw (id : Nat)
  | Signal (id : Nat)
  | Err (e : AnyhowError)
deriving DecidableEq, Repr

/-- `EvalError` (`error.rs` lines 9-13): backtrace frames (append order,
innermost first) plus the cause. -/
structure EvalError where
  backtrace : List String
  error : ErrorType
deriving DecidableEq, Repr

/-- `EvalError::new_error` (`error.rs` lines 40-45): wrap a generic cause
with an empty backtrace.  The `From` impls (`error.rs` lines 80-114) all
reduce to this constructor. -/
def EvalError.new_error (e : AnyhowError) : EvalError :=
  { backtrace := [], error := .Err e }

/-- Modelled from the spec: `display_slice`, the printer rendering a sequence
of values as text for backtrace frames (outside the given sources). -/
def display_slice (args : List GcObj) : String :=
  String.intercalate " " (args.map Object.to_string)

/-- `EvalError::with_trace` (`error.rs` lines 65-71): construct with one
initial frame `"{name} {display}"` already attached. -/
def EvalError.with_trace (e : AnyhowError) (name : String) (args : List GcObj) : EvalError :=
  { backtrace := [name ++ " " ++ display_slice args], error := .Err e }

/-- `EvalError::add_trace` (`error.rs` lines 73-77): push one more frame
`"{name} {display}"` onto the end of the backtrace. -/
def EvalError.add_trace (e : EvalError) (name : String) (args : List GcObj) : EvalError :=
  { e with backtrace := e.backtrace ++ [name ++ " " ++ display_slice args] }

/-- One `writeln!` step of the formatter: append the text and a newline. -/
def writeln (acc s : String) : String := acc ++ s ++ "\n"

/-- `impl Display for EvalError` (`error.rs` lines 24-37): the cause line
(the wrapped error's own message for `Err`, fixed texts for `Throw` and
`Signal`), then each backtrace frame on its own line in stored order, then
the literal line `END_BACKTRACE`. -/
def EvalError.display (e : EvalError) : String :=
  let acc :=
    match e.error with
    | .Err err => writeln "" err.display
    | .Throw _ => writeln "" "No catch for throw"
    | .Signal _ => writeln "" "Signal"
  let acc := e.backtrace.foldl writeln acc
  writeln acc "END_BACKTRACE"

/-- Each string of the list followed by a newline, concatenated in order. -/
def joinLines : List String → String
  | [] => ""
  | x :: xs => x ++ "\n" ++ joinLines xs

/-- If every element of the list converts successfully, the validation loop
of `try_from_slice` finds no error. -/
theorem validate_loop_eq_none {E β : Type} (conv : GcObj → Except E β) :
    ∀ slice : List GcObj, (∀ x ∈ slice, ∃ v, conv x = .ok v) →
      validate_loop conv slice = none
  | [], _ => rfl
  | x :: xs, h => by
    obtain ⟨v, hv⟩ := h x (List.mem_cons_self x xs)
    simp only [validate_loop, hv]
    exact validate_loop_eq_none conv xs (fun y hy => h y (List.mem_cons_of_mem x hy))

/-- If some element of the list fails to convert, the validation loop returns
the error of the first failing element. -/
theorem validate_loop_failure {E β : Type} (conv : GcObj → Except E β) :
    ∀ slice : List GcObj, (∃ x ∈ slice, ∃ e, conv x = .error e) →
      ∃ pre x post e, slice = pre ++ x :: post ∧
        (∀ y ∈ pre, ∃ v, conv y = .ok v) ∧ conv x = .error e ∧
        validate_loop conv slice = some e
  | [], h => by simp at h
  | a :: as, h => by
    cases hc : conv a with
    | error e =>
      exact ⟨[], a, as, e, rfl, by simp, hc, by simp [validate_loop, hc]⟩
    | ok v =>
      have hin : ∃ x ∈ as, ∃ e, conv x = .error e := by
        obtain ⟨x, hx, e, hxe⟩ := h
        rcases List.mem_cons.mp hx with rfl | hx
        · rw [hc] at hxe; cases hxe
        · exact ⟨x, hx, e, hxe⟩
      obtain ⟨pre, x, post, e, hs, hpre, hx, hv⟩ := validate_loop_failure conv as hin
      refine ⟨a :: pre, x, post, e, by simp [hs], ?_, hx, by simp [validate_loop, hc, hv]⟩
      intro y hy
      rcases List.mem_cons.mp hy with rfl | hy
      · exact ⟨v, hc⟩
      · exact hpre y hy

/-- `toString` of a string is the string itself (unfolds the interpolation
wrapper). -/
theorem toString_str (s : String) : toString s = s := rfl

/-- Folding the one-line writer over a list appends each entry on its own
line. -/
theorem foldl_writeln (l : List String) (acc : String) :
    l.foldl writeln acc = acc ++ joinLines l := by
  induction l generalizing acc with
  | nil => simp [joinLines]
  | cons x xs ih => simp [List.foldl, joinLines, writeln, ih, String.append_assoc]

/-- C1: Converting any tagged value to boolean always succeeds (never returns
an error), and the result is `false` exactly when the value is the canonical
nil object and `true` for every other value. -/
theorem bool_conversion_total (obj : GcObj) :
    ∃ b : Bool, bool_try_from obj = .ok b ∧ (b = false ↔ obj = Object.NIL) ∧
      (b = true ↔ obj ≠ Object.NIL) := by
  refine ⟨obj.nil, rfl, ?_, ?_⟩ <;> simp [Object.nil]

/-- C2: Converting any tagged value to the presence flag always succeeds, and
the result is `some ()` for every value that is not nil and `none` when the
value is nil. -/
theorem option_unit_conversion_total (obj : GcObj) :
    ∃ r : Option Unit, option_unit_try_from obj = .ok r ∧
      (r = none ↔ obj = Object.NIL) ∧ (obj ≠ Object.NIL → r = some ()) := by
  refine ⟨if obj.nil then some () else none, rfl, ?_, ?_⟩ <;>
    by_cases h : obj = Object.NIL <;> simp [Object.nil, h]

/-- C3: For every sequence of tagged values in which every element passes the
per-element tag check for the target narrower type, the whole-sequence
conversion succeeds, the returned view has the same length as the input, and
each element of the returned narrowed view is the same underlying value as
the corresponding element of the original sequence — indeed the view is the
original sequence itself (no element copied, replaced, or reordered). -/
theorem try_from_slice_all_ok {E β : Type} (conv : GcObj → Except E β)
    (slice : List GcObj) (h : ∀ x ∈ slice, ∃ v, conv x = .ok v) :
    ∃ out, try_from_slice conv slice = .ok out ∧ out.length = slice.length ∧
      (∀ i : Nat, out[i]? = slice[i]?) ∧ out = slice := by
  refine ⟨slice, ?_, rfl, fun i => rfl, rfl⟩
  simp [try_from_slice, validate_loop_eq_none conv slice h]

/-- Witness for C3: the concrete slice `[Int 1, Int 2]` with the Int
per-element conversion. -/
theorem try_from_slice_all_ok_witness :
    (∀ x ∈ [Object.Int 1, Object.Int 2], ∃ v, int_try_from x = .ok v) ∧
    (∃ out, try_from_slice int_try_from [Object.Int 1, Object.Int 2] = .ok out ∧
      out.length = [Object.Int 1, Object.Int 2].length ∧
      (∀ i : Nat, out[i]? = ([Object.Int 1, Object.Int 2] : List GcObj)[i]?) ∧
      out = [Object.Int 1, Object.Int 2]) := by
  have h : ∀ x ∈ [Object.Int 1, Object.Int 2], ∃ v, int_try_from x = .ok v := by
    intro x hx
    rcases List.mem_cons.mp hx with rfl | hx
    · exact ⟨1, rfl⟩
    rcases List.mem_cons.mp hx with rfl | hx
    · exact ⟨2, rfl⟩
    · cases hx
  exact ⟨h, try_from_slice_all_ok int_try_from _ h⟩

/-- C4: For every sequence of tagged values containing at least one element
that fails the per-element tag check, the whole-sequence conversion fails,
and the error it returns is exactly the error a single-element conversion of
the (first) failing element produces. -/
theorem try_from_slice_failure {E β : Type} (conv : GcObj → Except E β)
    (slice : List GcObj) (h : ∃ x ∈ slice, ∃ e, conv x = .error e) :
    ∃ pre x post e, slice = pre ++ x :: post ∧
      (∀ y ∈ pre, ∃ v, conv y = .ok v) ∧ conv x = .error e ∧
      try_from_slice conv slice = .error e := by
  obtain ⟨pre, x, post, e, hs, hpre, hx, hv⟩ := validate_loop_failure conv slice h
  exact ⟨pre, x, post, e, hs, hpre, hx, by simp [try_from_slice, hv]⟩

/-- Witness for C4: the concrete slice `[Int 1, String "b"]` with the Int
per-element conversion fails with the TypeError of the string element. -/
theorem try_from_slice_failure_witness :
    (∃ x ∈ [Object.Int 1, Object.String "b"], ∃ e, int_try_from x = .error e) ∧
    (∃ pre x post e, ([Object.Int 1, Object.String "b"] : List GcObj) = pre ++ x :: post ∧
      (∀ y ∈ pre, ∃ v, int_try_from y = .ok v) ∧ int_try_from x = .error e ∧
      try_from_slice int_try_from [Object.Int 1, Object.String "b"] = .error e) := by
  have h : ∃ x ∈ [Object.Int 1, Object.String "b"], ∃ e, int_try_from x = .error e :=
    ⟨Object.String "b", by simp, TypeError.new .Int (Object.String "b"), rfl⟩
  exact ⟨h, try_from_slice_failure int_try_from _ h⟩

/-- C5: For every Int-tagged value holding a negative n, conversion to an
unsigned integer type (usize or u64) fails with the contextual range error
whose message contains n (and is exactly "Integer must be positive, but was
n"), never a TypeError; for every value whose tag is not Int, the same
conversion fails with TypeError(expect=Int). -/
theorem unsigned_conversion_failures (n : Int) (obj : GcObj)
    (hn : n < 0) (hobj : ∀ m : Int, obj ≠ Object.Int m) :
    usize_try_from (Object.Int n) =
      .error (.context ("Integer must be positive, but was " ++ toString n) .intConvError) ∧
    u64_try_from (Object.Int n) =
      .error (.context ("Integer must be positive, but was " ++ toString n) .intConvError) ∧
    (∃ pre, "Integer must be positive, but was " ++ toString n = pre ++ toString n) ∧
    (∀ te, usize_try_from (Object.Int n) ≠ .error (.ofTypeError te)) ∧
    (∀ te, u64_try_from (Object.Int n) ≠ .error (.ofTypeError te)) ∧
    (∃ te, usize_try_from obj = .error (.ofTypeError te) ∧ te.expect = .Int) ∧
    (∃ te, u64_try_from obj = .error (.ofTypeError te) ∧ te.expect = .Int) := by
  have hn' : ¬(0 ≤ n) := not_le.mpr hn
  have h1 : usize_try_from (Object.Int n) =
      .error (.context ("Integer must be positive, but was " ++ toString n) .intConvError) := by
    simp [usize_try_from, Object.untag, hn']
  have h2 : u64_try_from (Object.Int n) =
      .error (.context ("Integer must be positive, but was " ++ toString n) .intConvError) := by
    simp [u64_try_from, Object.untag, hn']
  refine ⟨h1, h2, ⟨_, rfl⟩, ?_, ?_, ?_, ?_⟩
  · intro te hte
    rw [h1] at hte
    simp at hte
  · intro te hte
    rw [h2] at hte
    simp at hte
  · cases obj <;> first
      | exact absurd rfl (hobj _)
      | exact ⟨_, rfl, rfl⟩
  · cases obj <;> first
      | exact absurd rfl (hobj _)
      | exact ⟨_, rfl, rfl⟩

/-- Witness for C5: n = -1 and the Symbol-tagged value `foo`. -/
theorem unsigned_conversion_failures_witness :
    ((-1 : Int) < 0) ∧ (∀ m : Int, (Object.Symbol "foo" : GcObj) ≠ Object.Int m) ∧
    usize_try_from (Object.Int (-1)) =
      .error (.context ("Integer must be positive, but was " ++ toString (-1 : Int))
        .intConvError) ∧
    ("Integer must be positive, but was " ++ toString (-1 : Int) =
      "Integer must be positive, but was -1") ∧
    (∃ te, usize_try_from (Object.Symbol "foo") = .error (.ofTypeError te) ∧
      te.expect = .Int) := by
  have h1 : (-1 : Int) < 0 := by decide
  have h2 : ∀ m : Int, (Object.Symbol "foo" : GcObj) ≠ Object.Int m :=
    fun m hm => Object.noConfusion hm
  obtain ⟨e1, _, _, _, _, e6, _⟩ := unsigned_conversion_failures (-1) (Object.Symbol "foo") h1 h2
  exact ⟨h1, h2, e1, by decide, e6⟩

/-- C6: For every integer n ≥ 0, converting the tagged Int value holding n to
an unsigned integer type succeeds and yields n; the conversion round-trips. -/
theorem unsigned_conversion_roundtrip (n : Int) (hn : 0 ≤ n) :
    usize_try_from (gcobj_from_int n) = .ok n.toNat ∧
    u64_try_from (gcobj_from_int n) = .ok n.toNat ∧ (n.toNat : Int) = n := by
  refine ⟨?_, ?_, Int.toNat_of_nonneg hn⟩ <;>
    simp [usize_try_from, u64_try_from, gcobj_from_int, Object.untag, hn]

/-- Witness for C6: n = 5. -/
theorem unsigned_conversion_roundtrip_witness :
    (0 ≤ (5 : Int)) ∧ usize_try_from (gcobj_from_int 5) = .ok 5 ∧
    u64_try_from (gcobj_from_int 5) = .ok 5 ∧ ((5 : Int).toNat : Int) = 5 := by
  have h : (0 : Int) ≤ 5 := by decide
  obtain ⟨e1, e2, e3⟩ := unsigned_conversion_roundtrip 5 h
  exact ⟨h, e1, e2, e3⟩

/-- C7: Converting nil to optional text yields None; converting any
String-tagged value s yields Some(s) with identical content; converting a
value with any other tag fails with TypeError(expect=String). -/
theorem option_str_conversion_cases (s : String) (obj : GcObj)
    (hnil : obj ≠ Object.NIL) (hstr : ∀ t, obj ≠ Object.String t) :
    option_str_try_from Object.NIL = .ok none ∧
    option_str_try_from (Object.String s) = .ok (some s) ∧
    (∃ te, option_str_try_from obj = .error (.ofTypeError te) ∧ te.expect = .String) := by
  refine ⟨rfl, ?_, ?_⟩
  · simp [option_str_try_from, Object.untag, Object.NIL]
  · refine ⟨TypeError.new .String obj, ?_, rfl⟩
    simp only [option_str_try_from, Object.untag, hnil, if_false, ite_false]

/-- Witness for C7: s = "abc" and the Int-tagged value 0. -/
theorem option_str_conversion_cases_witness :
    ((Object.Int 0 : GcObj) ≠ Object.NIL) ∧ (∀ t, (Object.Int 0 : GcObj) ≠ Object.String t) ∧
    option_str_try_from Object.NIL = .ok none ∧
    option_str_try_from (Object.String "abc") = .ok (some "abc") ∧
    (∃ te, option_str_try_from (Object.Int 0) = .error (.ofTypeError te) ∧
      te.expect = .String) := by
  have h1 : (Object.Int 0 : GcObj) ≠ Object.NIL := fun hm => Object.noConfusion hm
  have h2 : ∀ t, (Object.Int 0 : GcObj) ≠ Object.String t := fun t hm => Object.noConfusion hm
  obtain ⟨e1, e2, e3⟩ := option_str_conversion_cases "abc" (Object.Int 0) h1 h2
  exact ⟨h1, h2, e1, e2, e3⟩

/-- C8: Appending a frame named "f" and then a frame named "g" to any unified
error yields a backtrace in which the "f" frame immediately precedes the "g"
frame and both come after all pre-existing frames. -/
theorem add_trace_order (e : EvalError) (a1 a2 : List GcObj) :
    ((e.add_trace "f" a1).add_trace "g" a2).backtrace =
      e.backtrace ++ ["f " ++ display_slice a1, "g " ++ display_slice a2] := by
  simp [EvalError.add_trace]

/-- C9: Rendering any unified error produces the cause line (the wrapped
cause's own message for a Generic cause, "No catch for throw" for a Throw
cause, "Signal" for a Signal cause), then each backtrace frame on its own
line in stored order, and finally the literal sentinel line END_BACKTRACE,
with which the rendering always ends. -/
theorem display_structure (e : EvalError) :
    e.display =
      (match e.error with
        | .Err err => err.display
        | .Throw _ => "No catch for throw"
        | .Signal _ => "Signal") ++ "\n" ++ joinLines e.backtrace ++ "END_BACKTRACE" ++ "\n" ∧
    ∃ p, e.display = p ++ "END_BACKTRACE" ++ "\n" := by
  have h : e.display =
      (match e.error with
        | .Err err => err.display
        | .Throw _ => "No catch for throw"
        | .Signal _ => "Signal") ++ "\n" ++ joinLines e.backtrace ++ "END_BACKTRACE" ++ "\n" := by
    obtain ⟨bt, err⟩ := e
    cases err <;>
      simp [EvalError.display, writeln, foldl_writeln, String.append_assoc, String.empty_append]
  exact ⟨h, _, h⟩

/-- C10: ArgError::new(2, 3, "my-fn") renders exactly as
"Expected 2 argument(s) for \x60my-fn', but found 3"; in general ArgError
renders as "Expected \x7bexpect\x7d argument(s) for \x60\x7bname\x7d', but
found \x7bactual\x7d". -/
theorem arg_error_display (expect actual : Nat) (nm : String) :
    (ArgError.new 2 3 "my-fn").display = "Expected 2 argument(s) for `my-fn', but found 3" ∧
    (ArgError.new expect actual nm).display =
      "Expected " ++ toString expect ++ " argument(s) for `" ++ nm ++ "', but found " ++
        toString actual := by
  constructor
  · decide
  · simp [ArgError.new, ArgError.display, String.append_assoc, toString_str,
      String.append_empty]

end Rune
